import Mathlib

/-!
Shallow embedding of the chat-widget component in its two variants:
the internal-state variant (src/src/Chabot/Chatbot.tsx) and the
paired-entry variant (src/unnamed/part_000).  The component is modelled
as a state machine: every UI event (toggle, typing, submit trigger) and
the settle callback of the one in-flight network call is an `Event`, and
`step` gives the new component state.  The async `handleSendMessage` is
split at its single `await` boundary into a synchronous start phase
(guard, optimistic updates, issuing the request) and a settle phase
(success / failure reconciliation), which is exactly how the JavaScript
event loop interleaves it.  Machine-level details that the claims do not
touch (styling, markup, scroll/focus hints) are out of the model; times
and message ids (`Date.now()`) are naturals supplied by the event.
-/

namespace Chatbot

/-- The JavaScript `String.prototype.trim()` call used by both
variants, modelled executably on the character list: leading and
trailing whitespace removed.  (The library `String.trim` is
extensionally the same here but is defined through an irreducible
well-founded recursion, so it cannot be evaluated inside proofs.) -/
def jsTrim (s : String) : String :=
  ⟨((s.data.dropWhile Char.isWhitespace).reverse.dropWhile
      Char.isWhitespace).reverse⟩

/-- Body of the outbound POST request (Chatbot.tsx lines 93-97 and
part_000 lines 75-79): `{ message, userId, timestamp }`. -/
structure RequestBody where
  message : String
  userId : String
  timestamp : Nat
deriving DecidableEq, Repr

/-- Outcome of the one `fetch` round-trip: the promise rejects outright
(network failure, or a later `res.json()` failure, both landing in the
same `catch`), or it resolves with `res.ok` and a parsed body whose
`answer` field is absent (`none`) or a string. -/
inductive FetchResult
  | reject
  | resolve (ok : Bool) (answer : Option String)
deriving DecidableEq, Repr

/-- Fixed fallback reply used when the success body has no usable
`answer` (Chatbot.tsx line 103, part_000 line 85). -/
def fallbackReply : String :=
  "Thank you for your message. How can I assist you further?"

/-- Fixed apology appended on the failure path (Chatbot.tsx line 129,
part_000 line 102). -/
def apologyReply : String :=
  "Sorry, I encountered a temporary issue. Please try again in a moment."

/-- The expression `data.answer || fallback` (Chatbot.tsx line 103,
part_000 line 85): JavaScript `||` takes the fallback when `answer` is
absent (undefined) or the empty string, both falsy. -/
def botResponseOf (answer : Option String) : String :=
  match answer with
  | none => fallbackReply
  | some a => if a = "" then fallbackReply else a

/-- Relevant fields of the keyboard event seen by `handleKeyPress`. -/
structure KeyEvent where
  key : String
  shiftKey : Bool
  ctrlKey : Bool
  altKey : Bool
  metaKey : Bool
deriving DecidableEq, Repr

/-- Whether `handleKeyPress` invokes `handleSendMessage` (Chatbot.tsx
lines 140-145 and, identically, part_000 lines 112-117): the condition
is `e.key === 'Enter' && !e.shiftKey`. -/
def handleKeyPress (e : KeyEvent) : Bool :=
  e.key == "Enter" && !e.shiftKey

namespace Internal

/-- The `User` interface of Chatbot.tsx (lines 4-9). -/
structure User where
  id : String
  name : String
  email : Option String
  avatar : Option String
deriving DecidableEq, Repr

/-- Origin tag of a `ChatMessage` (its `type` field). -/
inductive MsgType
  | user
  | bot
deriving DecidableEq, Repr

/-- The `ChatMessage` interface of Chatbot.tsx (lines 11-17); `id` and
`timestamp` come from `Date.now()` / `new Date()` and are modelled as
naturals. -/
structure ChatMessage where
  id : Nat
  type : MsgType
  message : String
  timestamp : Nat
  avatar : Option String
deriving DecidableEq, Repr

/-- Payload of the `onSaveMessage` callback (Chatbot.tsx line 24). -/
structure SaveData where
  question : String
  answer : String
  userId : String
deriving DecidableEq, Repr

/-- Construction parameters of the internal-state variant that the
claims touch (ChatbotProps, Chatbot.tsx lines 19-33); `hasOnSaveMessage`
records whether the optional `onSaveMessage` callback was supplied. -/
structure Config where
  user : User
  chatbotId : String
  apiKey : String
  hasOnSaveMessage : Bool
  initialMessages : List ChatMessage
  botAvatar : String
  userAvatar : String
  apiEndpoint : String
deriving DecidableEq, Repr

/-- Component state of the internal-state variant: the four pieces of
React state (`isOpen`, `messages`, `inputMessage`, `isLoading`), plus
observable history used to state the claims: `pending` is the text the
running `handleSendMessage` closure captured for the in-flight call
(`none` when no call is in flight), `sentRequests` the bodies of every
issued network call, `settled` how many of them have settled, and
`saved` every invocation of the `onSaveMessage` callback in order. -/
structure State where
  isOpen : Bool
  messages : List ChatMessage
  inputMessage : String
  isLoading : Bool
  pending : Option String
  sentRequests : List RequestBody
  settled : Nat
  saved : List SaveData
deriving DecidableEq, Repr

/-- Initial state on mount (Chatbot.tsx lines 50-53). -/
def init (c : Config) : State :=
  { isOpen := false
    messages := c.initialMessages
    inputMessage := ""
    isLoading := false
    pending := none
    sentRequests := []
    settled := 0
    saved := [] }

/-- Avatar of the optimistic user message: `user.avatar || userAvatar`
(Chatbot.tsx line 79), with JavaScript falsiness of the empty string. -/
def userMsgAvatar (c : Config) : String :=
  match c.user.avatar with
  | none => c.userAvatar
  | some a => if a = "" then c.userAvatar else a

/-- Synchronous start of `handleSendMessage` (Chatbot.tsx lines 71-98):
the guard `if (!inputMessage.trim() || isLoading) return`, then the
optimistic user message is appended, the input cleared, the loading flag
set, and the network request issued with the trimmed text the closure
captured.  Everything up to the `await fetch` is one atomic step. -/
def handleSendMessageStart (c : Config) (t : Nat) (s : State) : State :=
  if jsTrim s.inputMessage == "" || s.isLoading then s
  else
    let text := jsTrim s.inputMessage
    { s with
      messages := s.messages ++
        [{ id := t, type := MsgType.user, message := text, timestamp := t,
           avatar := some (userMsgAvatar c) }]
      inputMessage := ""
      isLoading := true
      pending := some text
      sentRequests := s.sentRequests ++ [⟨text, c.user.id, t⟩] }

/-- Settle phase of `handleSendMessage` (Chatbot.tsx lines 100-137): on
`res.ok` the bot reply (with fallback) is appended and the callback, if
supplied, invoked with the closure-captured trimmed text; any rejection
or non-ok status lands in `catch` and appends the apology; `finally`
clears the loading flag.  When no call is in flight the event cannot
occur and is a no-op. -/
def handleSendMessageSettle (c : Config) (t : Nat) (r : FetchResult)
    (s : State) : State :=
  match s.pending with
  | none => s
  | some text =>
    match r with
    | FetchResult.resolve true answer =>
      let botResponse := botResponseOf answer
      { s with
        messages := s.messages ++
          [{ id := t + 1, type := MsgType.bot, message := botResponse,
             timestamp := t, avatar := some c.botAvatar }]
        saved := if c.hasOnSaveMessage then
            s.saved ++ [⟨text, botResponse, c.user.id⟩]
          else s.saved
        isLoading := false
        pending := none
        settled := s.settled + 1 }
    | _ =>
      { s with
        messages := s.messages ++
          [{ id := t + 1, type := MsgType.bot, message := apologyReply,
             timestamp := t, avatar := some c.botAvatar }]
        isLoading := false
        pending := none
        settled := s.settled + 1 }

/-- Events of the internal-state variant: toggling the panel
(`toggleChat`), typing in the input box (the `onChange` handler), a
submit trigger (send button click or Enter), and the settle callback of
the in-flight call.  `t` is the clock value (`Date.now()`) at the
event. -/
inductive Event
  | toggle
  | setInput (text : String)
  | submit (t : Nat)
  | settle (t : Nat) (r : FetchResult)

/-- One event step of the internal-state component. -/
def step (c : Config) (s : State) : Event → State
  | Event.toggle => { s with isOpen := !s.isOpen }
  | Event.setInput text => { s with inputMessage := text }
  | Event.submit t => handleSendMessageStart c t s
  | Event.settle t r => handleSendMessageSettle c t r s

/-- Run of the component over a sequence of events. -/
def run (c : Config) (s : State) : List Event → State
  | [] => s
  | e :: es => run c (step c s e) es

/-- Number of issued network calls that have not yet settled. -/
def outstanding (s : State) : Nat := s.sentRequests.length - s.settled

end Internal

namespace Paired

/-- The `User` interface of part_000 (lines 4-8). -/
structure User where
  id : String
  name : String
  image : Option String
deriving DecidableEq, Repr

/-- The `ConversationEntry` interface of part_000 (lines 10-14): one
paired record holding both halves of an exchange. -/
structure ConversationEntry where
  user : String
  bot : String
  time : Nat
deriving DecidableEq, Repr

/-- Host-visible effects the paired-entry component can emit: an
outbound network request, or a call of the caller-supplied
`setConversation` mutator recorded with the sequence its update function
produced.  A save notification `{question, answer, userId}` is listed as
a possible channel so that its absence is a provable statement: the
component never emits one (ChatbotProps of part_000 has no
`onSaveMessage` member at all). -/
inductive HostEffect
  | netRequest (r : RequestBody)
  | convUpdate (newConv : List ConversationEntry)
  | saveNotify (question answer userId : String)
deriving DecidableEq, Repr

/-- Whether a host effect is an outbound network request. -/
def HostEffect.isNetRequest : HostEffect → Bool
  | HostEffect.netRequest _ => true
  | _ => false

/-- Whether a host effect is a save notification. -/
def HostEffect.isSaveNotify : HostEffect → Bool
  | HostEffect.saveNotify _ _ _ => true
  | _ => false

/-- Construction parameters of the paired-entry variant that the claims
touch (ChatbotProps, part_000 lines 16-27): there is no save callback
and no initial-messages seed; the conversation and its mutator are
supplied by the caller. -/
structure Config where
  user : User
  chatbotId : String
  apiKey : String
  apiEndpoint : String
deriving DecidableEq, Repr

/-- Component state of the paired-entry variant: the React state
(`isOpen`, `inputMessage`, `isLoading`), the externally-owned
`conversation` as the owner holds it after applying every requested
update exactly, plus `pending`, the emitted `effects` in order, and the
`settled` call count. -/
structure State where
  isOpen : Bool
  conversation : List ConversationEntry
  inputMessage : String
  isLoading : Bool
  pending : Option String
  effects : List HostEffect
  settled : Nat
deriving DecidableEq, Repr

/-- Initial state on mount (part_000 lines 41-43), over the
caller-initialized conversation. -/
def init (conv : List ConversationEntry) : State :=
  { isOpen := false
    conversation := conv
    inputMessage := ""
    isLoading := false
    pending := none
    effects := []
    settled := 0 }

/-- Synchronous start of `handleSendMessage` (part_000 lines 61-80):
the same guard, then the trimmed text is captured as `userMessage`, the
input cleared, the loading flag set and the request issued.  Nothing is
appended to the conversation at this point. -/
def handleSendMessageStart (c : Config) (t : Nat) (s : State) : State :=
  if jsTrim s.inputMessage == "" || s.isLoading then s
  else
    let userMessage := jsTrim s.inputMessage
    { s with
      inputMessage := ""
      isLoading := true
      pending := some userMessage
      effects := s.effects ++ [HostEffect.netRequest ⟨userMessage, c.user.id, t⟩] }

/-- Settle phase of `handleSendMessage` (part_000 lines 82-109): on
success one completed entry `{user, bot, time}` is appended via
`setConversation(prev => [...prev, newEntry])`; any rejection or non-ok
status appends the paired entry with the apology as the bot half;
`finally` clears the loading flag.  The configuration is unused here:
this settle path has no callback and no avatar to read. -/
def handleSendMessageSettle (_c : Config) (t : Nat) (r : FetchResult)
    (s : State) : State :=
  match s.pending with
  | none => s
  | some userMessage =>
    match r with
    | FetchResult.resolve true answer =>
      let newConv := s.conversation ++
        [⟨userMessage, botResponseOf answer, t⟩]
      { s with
        conversation := newConv
        effects := s.effects ++ [HostEffect.convUpdate newConv]
        isLoading := false
        pending := none
        settled := s.settled + 1 }
    | _ =>
      let newConv := s.conversation ++ [⟨userMessage, apologyReply, t⟩]
      { s with
        conversation := newConv
        effects := s.effects ++ [HostEffect.convUpdate newConv]
        isLoading := false
        pending := none
        settled := s.settled + 1 }

/-- Events of the paired-entry variant. -/
inductive Event
  | toggle
  | setInput (text : String)
  | submit (t : Nat)
  | settle (t : Nat) (r : FetchResult)

/-- One event step of the paired-entry component. -/
def step (c : Config) (s : State) : Event → State
  | Event.toggle => { s with isOpen := !s.isOpen }
  | Event.setInput text => { s with inputMessage := text }
  | Event.submit t => handleSendMessageStart c t s
  | Event.settle t r => handleSendMessageSettle c t r s

/-- Run of the component over a sequence of events. -/
def run (c : Config) (s : State) : List Event → State
  | [] => s
  | e :: es => run c (step c s e) es

/-- Number of network requests emitted so far. -/
def sent (s : State) : Nat :=
  (s.effects.filter HostEffect.isNetRequest).length

/-- Number of save notifications emitted so far. -/
def savesCount (s : State) : Nat :=
  (s.effects.filter HostEffect.isSaveNotify).length

/-- Number of issued network calls that have not yet settled. -/
def outstanding (s : State) : Nat := sent s - s.settled

end Paired

/-- A failed round-trip in the sense of the failure path: the promise
rejects outright, or it resolves with a non-ok status (which
`handleSendMessage` turns into a thrown error). -/
def isFailure (r : FetchResult) : Prop :=
  r = FetchResult.reject ∨ ∃ a, r = FetchResult.resolve false a

namespace Internal

/-- Inductive invariant of the internal-state variant: the number of
issued calls exceeds the settled ones by exactly one while the loading
flag is set and by zero otherwise, and a captured pending text exists
exactly while loading. -/
def Inv (s : State) : Prop :=
  s.sentRequests.length = s.settled + (if s.isLoading then 1 else 0) ∧
  s.pending.isSome = s.isLoading

end Internal

namespace Paired

/-- Inductive invariant of the paired-entry variant, mirroring
`Internal.Inv` over the emitted request effects. -/
def Inv (s : State) : Prop :=
  sent s = s.settled + (if s.isLoading then 1 else 0) ∧
  s.pending.isSome = s.isLoading

end Paired

/-- Sample user of the internal-state variant, for concrete
instantiations. -/
def demoUserI : Internal.User :=
  { id := "u1", name := "Ada", email := none, avatar := none }

/-- Sample configuration of the internal-state variant with the save
callback supplied. -/
def cfgI : Internal.Config :=
  { user := demoUserI, chatbotId := "b1", apiKey := "k"
    hasOnSaveMessage := true, initialMessages := []
    botAvatar := "B", userAvatar := "U", apiEndpoint := "e" }

/-- Internal-variant state with the text hello composed and no call in
flight. -/
def composingI : Internal.State :=
  { isOpen := true, messages := [], inputMessage := "hello"
    isLoading := false, pending := none, sentRequests := []
    settled := 0, saved := [] }

/-- Internal-variant state with one call in flight. -/
def loadingI : Internal.State :=
  { isOpen := true, messages := [], inputMessage := ""
    isLoading := true, pending := some "hello"
    sentRequests := [⟨"hello", "u1", 1⟩], settled := 0, saved := [] }

/-- Sample user of the paired-entry variant. -/
def demoUserP : Paired.User := { id := "u1", name := "Ada", image := none }

/-- Sample configuration of the paired-entry variant. -/
def cfgP : Paired.Config :=
  { user := demoUserP, chatbotId := "b1", apiKey := "k", apiEndpoint := "e" }

/-- Paired-variant state with the text hello composed and no call in
flight. -/
def composingP : Paired.State :=
  { isOpen := true, conversation := [], inputMessage := "hello"
    isLoading := false, pending := none, effects := [], settled := 0 }

/-- Paired-variant state with one call in flight. -/
def loadingP : Paired.State :=
  { isOpen := true, conversation := [], inputMessage := ""
    isLoading := true, pending := some "hello"
    effects := [Paired.HostEffect.netRequest ⟨"hello", "u1", 1⟩]
    settled := 0 }

namespace Internal

theorem invI_step (c : Config) (s : State) (e : Event) (h : Inv s) :
    Inv (step c s e) := by
  obtain ⟨h1, h2⟩ := h
  cases e with
  | toggle => exact ⟨h1, h2⟩
  | setInput text => exact ⟨h1, h2⟩
  | submit t =>
    cases hg : jsTrim s.inputMessage == "" || s.isLoading with
    | true =>
      simp only [step, handleSendMessageStart, hg, if_pos]
      exact ⟨h1, h2⟩
    | false =>
      have hload : s.isLoading = false := (Bool.or_eq_false_iff.mp hg).2
      rw [hload] at h1
      constructor <;>
        simp [step, handleSendMessageStart, hg, h1]
  | settle t r =>
    cases hp : s.pending with
    | none =>
      simp only [step, handleSendMessageSettle, hp]
      exact ⟨h1, h2⟩
    | some text =>
      have hload : s.isLoading = true := by rw [← h2, hp]; rfl
      rw [hload] at h1
      cases r with
      | reject =>
        constructor <;> simp [step, handleSendMessageSettle, hp, h1]
      | resolve ok answer =>
        cases ok with
        | true =>
          constructor <;> simp [step, handleSendMessageSettle, hp, h1]
        | false =>
          constructor <;> simp [step, handleSendMessageSettle, hp, h1]

theorem invI_run (c : Config) (s : State) (evs : List Event) (h : Inv s) :
    Inv (run c s evs) := by
  induction evs generalizing s with
  | nil => exact h
  | cons e es ih => exact ih _ (invI_step c s e h)

theorem invI_init (c : Config) : Inv (init c) := by
  simp [Inv, init]

end Internal

namespace Paired

theorem sent_step_submit_false (c : Config) (s : State) (t : Nat)
    (hg : (jsTrim s.inputMessage == "" || s.isLoading) = false) :
    sent (step c s (Event.submit t)) = sent s + 1 := by
  simp [sent, step, handleSendMessageStart, hg, HostEffect.isNetRequest]

theorem sent_step_settle (c : Config) (s : State) (t : Nat)
    (r : FetchResult) (text : String) (hp : s.pending = some text) :
    sent (step c s (Event.settle t r)) = sent s := by
  cases r with
  | reject =>
    simp [sent, step, handleSendMessageSettle, hp, HostEffect.isNetRequest]
  | resolve ok answer =>
    cases ok <;>
      simp [sent, step, handleSendMessageSettle, hp, HostEffect.isNetRequest]

theorem step_settle_fields (c : Config) (s : State) (t : Nat)
    (r : FetchResult) (text : String) (hp : s.pending = some text) :
    (step c s (Event.settle t r)).settled = s.settled + 1 ∧
    (step c s (Event.settle t r)).isLoading = false ∧
    (step c s (Event.settle t r)).pending = none := by
  cases r with
  | reject => simp [step, handleSendMessageSettle, hp]
  | resolve ok answer => cases ok <;> simp [step, handleSendMessageSettle, hp]

theorem invP_step (c : Config) (s : State) (e : Event) (h : Inv s) :
    Inv (step c s e) := by
  obtain ⟨h1, h2⟩ := h
  cases e with
  | toggle => exact ⟨h1, h2⟩
  | setInput text => exact ⟨h1, h2⟩
  | submit t =>
    cases hg : jsTrim s.inputMessage == "" || s.isLoading with
    | true =>
      simp only [step, handleSendMessageStart, hg, if_pos]
      exact ⟨h1, h2⟩
    | false =>
      have hload : s.isLoading = false := (Bool.or_eq_false_iff.mp hg).2
      rw [hload] at h1
      simp only [hload, if_neg, Bool.false_eq_true, not_false_iff,
        Nat.add_zero] at h1
      constructor
      · rw [sent_step_submit_false c s t hg]
        simp [step, handleSendMessageStart, hg, h1]
      · simp [step, handleSendMessageStart, hg]
  | settle t r =>
    cases hp : s.pending with
    | none =>
      simp only [step, handleSendMessageSettle, hp]
      exact ⟨h1, h2⟩
    | some text =>
      have hload : s.isLoading = true := by rw [← h2, hp]; rfl
      rw [hload] at h1
      simp only [if_pos rfl] at h1
      obtain ⟨e1, e2, e3⟩ := step_settle_fields c s t r text hp
      constructor
      · rw [sent_step_settle c s t r text hp, e1, e2]
        simpa using h1
      · rw [e3, e2]; rfl

theorem invP_run (c : Config) (s : State) (evs : List Event) (h : Inv s) :
    Inv (run c s evs) := by
  induction evs generalizing s with
  | nil => exact h
  | cons e es ih => exact ih _ (invP_step c s e h)

theorem invP_init (conv : List ConversationEntry) : Inv (init conv) := by
  simp [Inv, init, sent]

end Paired

namespace Internal

theorem messages_step_cases (c : Config) (s : State) (e : Event) :
    (step c s e).messages = s.messages ∨
    ∃ m, (step c s e).messages = s.messages ++ [m] := by
  cases e with
  | toggle => exact Or.inl rfl
  | setInput text => exact Or.inl rfl
  | submit t =>
    cases hg : jsTrim s.inputMessage == "" || s.isLoading with
    | true => exact Or.inl (by simp [step, handleSendMessageStart, hg])
    | false =>
      refine Or.inr
        ⟨⟨t, MsgType.user, jsTrim s.inputMessage, t,
          some (userMsgAvatar c)⟩, ?_⟩
      simp [step, handleSendMessageStart, hg]
  | settle t r =>
    cases hp : s.pending with
    | none => exact Or.inl (by simp [step, handleSendMessageSettle, hp])
    | some text =>
      cases r with
      | reject =>
        refine Or.inr
          ⟨⟨t + 1, MsgType.bot, apologyReply, t, some c.botAvatar⟩, ?_⟩
        simp [step, handleSendMessageSettle, hp]
      | resolve ok answer =>
        cases ok with
        | true =>
          refine Or.inr
            ⟨⟨t + 1, MsgType.bot, botResponseOf answer, t,
              some c.botAvatar⟩, ?_⟩
          simp [step, handleSendMessageSettle, hp]
        | false =>
          refine Or.inr
            ⟨⟨t + 1, MsgType.bot, apologyReply, t, some c.botAvatar⟩, ?_⟩
          simp [step, handleSendMessageSettle, hp]

theorem messages_run_extends (c : Config) (s : State) (evs : List Event) :
    ∃ tail, (run c s evs).messages = s.messages ++ tail := by
  induction evs generalizing s with
  | nil => exact ⟨[], (List.append_nil _).symm⟩
  | cons e es ih =>
    obtain ⟨tail, htail⟩ := ih (step c s e)
    rcases messages_step_cases c s e with h | ⟨m, hm⟩
    · refine ⟨tail, ?_⟩
      simp only [run]
      rw [htail, h]
    · refine ⟨m :: tail, ?_⟩
      simp only [run]
      rw [htail, hm, List.append_assoc]
      rfl

end Internal

namespace Paired

theorem conversation_step_cases (c : Config) (s : State) (e : Event) :
    (step c s e).conversation = s.conversation ∨
    ∃ en, (step c s e).conversation = s.conversation ++ [en] := by
  cases e with
  | toggle => exact Or.inl rfl
  | setInput text => exact Or.inl rfl
  | submit t =>
    cases hg : jsTrim s.inputMessage == "" || s.isLoading with
    | true => exact Or.inl (by simp [step, handleSendMessageStart, hg])
    | false => exact Or.inl (by simp [step, handleSendMessageStart, hg])
  | settle t r =>
    cases hp : s.pending with
    | none => exact Or.inl (by simp [step, handleSendMessageSettle, hp])
    | some text =>
      cases r with
      | reject =>
        refine Or.inr ⟨⟨text, apologyReply, t⟩, ?_⟩
        simp [step, handleSendMessageSettle, hp]
      | resolve ok answer =>
        cases ok with
        | true =>
          refine Or.inr ⟨⟨text, botResponseOf answer, t⟩, ?_⟩
          simp [step, handleSendMessageSettle, hp]
        | false =>
          refine Or.inr ⟨⟨text, apologyReply, t⟩, ?_⟩
          simp [step, handleSendMessageSettle, hp]

theorem conversation_run_extends (c : Config) (s : State)
    (evs : List Event) :
    ∃ tail, (run c s evs).conversation = s.conversation ++ tail := by
  induction evs generalizing s with
  | nil => exact ⟨[], (List.append_nil _).symm⟩
  | cons e es ih =>
    obtain ⟨tail, htail⟩ := ih (step c s e)
    rcases conversation_step_cases c s e with h | ⟨en, hen⟩
    · refine ⟨tail, ?_⟩
      simp only [run]
      rw [htail, h]
    · refine ⟨en :: tail, ?_⟩
      simp only [run]
      rw [htail, hen, List.append_assoc]
      rfl

theorem savesCount_step (c : Config) (s : State) (e : Event) :
    savesCount (step c s e) = savesCount s := by
  cases e with
  | toggle => rfl
  | setInput text => rfl
  | submit t =>
    cases hg : jsTrim s.inputMessage == "" || s.isLoading with
    | true => simp [step, handleSendMessageStart, hg]
    | false =>
      simp [savesCount, step, handleSendMessageStart, hg,
        HostEffect.isSaveNotify]
  | settle t r =>
    cases hp : s.pending with
    | none => simp [step, handleSendMessageSettle, hp]
    | some text =>
      cases r with
      | reject =>
        simp [savesCount, step, handleSendMessageSettle, hp,
          HostEffect.isSaveNotify]
      | resolve ok answer =>
        cases ok <;>
          simp [savesCount, step, handleSendMessageSettle, hp,
            HostEffect.isSaveNotify]

theorem savesCount_run (c : Config) (s : State) (evs : List Event) :
    savesCount (run c s evs) = savesCount s := by
  induction evs generalizing s with
  | nil => rfl
  | cons e es ih =>
    simp only [run]
    rw [ih (step c s e), savesCount_step]

end Paired

/-- C2: submitting when the trimmed input text is empty, or while a
request is pending, is a complete no-op in both variants: the whole
component state — conversation store, input text, pending flag, open
flag, and the histories of issued requests, settles and callback
invocations — is exactly unchanged, so in particular no message or
entry is appended and no network call is issued. -/
theorem guarded_submit_is_no_op :
    (∀ (c : Internal.Config) (s : Internal.State) (t : Nat),
      jsTrim s.inputMessage = "" ∨ s.isLoading = true →
      Internal.step c s (Internal.Event.submit t) = s) ∧
    (∀ (c : Paired.Config) (s : Paired.State) (t : Nat),
      jsTrim s.inputMessage = "" ∨ s.isLoading = true →
      Paired.step c s (Paired.Event.submit t) = s) := by
  constructor <;> intro c s t h <;> rcases h with h | h <;>
    simp [Internal.step, Paired.step, Internal.handleSendMessageStart,
      Paired.handleSendMessageStart, h]

/-- Concrete check of `guarded_submit_is_no_op`: a submit trigger in a
loading state of either variant, and in an all-whitespace-input state,
changes nothing. -/
theorem guarded_submit_is_no_op_witness :
    Internal.step cfgI loadingI (Internal.Event.submit 5) = loadingI ∧
    Paired.step cfgP loadingP (Paired.Event.submit 5) = loadingP :=
  ⟨guarded_submit_is_no_op.1 cfgI loadingI 5 (Or.inr rfl),
   guarded_submit_is_no_op.2 cfgP loadingP 5 (Or.inr rfl)⟩

/-- C7 (amended): a key press in the input box triggers the submit
action exactly when the key is Enter and Shift is not held; the handler
does not consult Ctrl, Alt or Meta, so Enter combined with one of those
modifiers still triggers submit.  Identical condition in both
variants. -/
theorem enter_key_triggers_iff_no_shift (e : KeyEvent) :
    handleKeyPress e = true ↔ e.key = "Enter" ∧ e.shiftKey = false := by
  simp [handleKeyPress]

/-- Concrete check of `enter_key_triggers_iff_no_shift` at a plain
Enter press. -/
theorem enter_key_triggers_iff_no_shift_witness :
    handleKeyPress
      { key := "Enter", shiftKey := false, ctrlKey := false
        altKey := false, metaKey := false } = true :=
  (enter_key_triggers_iff_no_shift _).mpr ⟨rfl, rfl⟩

/-- C1: the pending flag is the sole concurrency guard — over every
event sequence from the mounted state, the number of issued network
calls never exceeds the settled ones by more than one, and a submit
trigger while the flag is set leaves the state (hence the issued-call
history) untouched, in both variants. -/
theorem at_most_one_outstanding_call :
    (∀ (c : Internal.Config) (evs : List Internal.Event),
      Internal.outstanding (Internal.run c (Internal.init c) evs) ≤ 1) ∧
    (∀ (c : Internal.Config) (s : Internal.State) (t : Nat),
      s.isLoading = true →
      Internal.step c s (Internal.Event.submit t) = s) ∧
    (∀ (conv : List Paired.ConversationEntry) (c : Paired.Config)
       (evs : List Paired.Event),
      Paired.outstanding (Paired.run c (Paired.init conv) evs) ≤ 1) ∧
    (∀ (c : Paired.Config) (s : Paired.State) (t : Nat),
      s.isLoading = true →
      Paired.step c s (Paired.Event.submit t) = s) := by
  refine ⟨?_, ?_, ?_, ?_⟩
  · intro c evs
    have h := (Internal.invI_run c _ evs (Internal.invI_init c)).1
    unfold Internal.outstanding
    cases hL : (Internal.run c (Internal.init c) evs).isLoading <;>
      rw [hL] at h <;> simp at h <;> omega
  · intro c s t h
    simp [Internal.step, Internal.handleSendMessageStart, h]
  · intro conv c evs
    have h := (Paired.invP_run c _ evs (Paired.invP_init conv)).1
    unfold Paired.outstanding
    cases hL : (Paired.run c (Paired.init conv) evs).isLoading <;>
      rw [hL] at h <;> simp at h <;> omega
  · intro c s t h
    simp [Paired.step, Paired.handleSendMessageStart, h]

/-- Concrete check of `at_most_one_outstanding_call`: a run with two
back-to-back submit triggers, and a submit in a loading state. -/
theorem at_most_one_outstanding_call_witness :
    Internal.outstanding (Internal.run cfgI (Internal.init cfgI)
      [Internal.Event.setInput "hi", Internal.Event.submit 1,
       Internal.Event.submit 2]) ≤ 1 ∧
    Internal.step cfgI loadingI (Internal.Event.submit 7) = loadingI :=
  ⟨at_most_one_outstanding_call.1 cfgI _,
   at_most_one_outstanding_call.2.1 cfgI loadingI 7 rfl⟩

/-- C3: a success response whose body lacks an `answer` field or whose
`answer` is the empty string makes the appended bot text the fixed
fallback string, verbatim, in both variants. -/
theorem missing_or_empty_answer_falls_back :
    (∀ (c : Internal.Config) (s : Internal.State) (text : String) (t : Nat)
       (answer : Option String),
      s.pending = some text → answer = none ∨ answer = some "" →
      (Internal.step c s
        (Internal.Event.settle t (FetchResult.resolve true answer))).messages =
        s.messages ++
          [{ id := t + 1, type := Internal.MsgType.bot
             message := fallbackReply, timestamp := t
             avatar := some c.botAvatar }]) ∧
    (∀ (c : Paired.Config) (s : Paired.State) (text : String) (t : Nat)
       (answer : Option String),
      s.pending = some text → answer = none ∨ answer = some "" →
      (Paired.step c s
        (Paired.Event.settle t (FetchResult.resolve true answer))).conversation =
        s.conversation ++ [⟨text, fallbackReply, t⟩]) := by
  constructor <;> intro c s text t answer hp ha <;> rcases ha with ha | ha <;>
    subst ha <;>
    simp [Internal.step, Paired.step, Internal.handleSendMessageSettle,
      Paired.handleSendMessageSettle, hp, botResponseOf]

/-- Concrete check of `missing_or_empty_answer_falls_back`: a body with
no `answer` in the internal variant, and an empty `answer` in the
paired variant. -/
theorem missing_or_empty_answer_falls_back_witness :
    (Internal.step cfgI loadingI
      (Internal.Event.settle 3 (FetchResult.resolve true none))).messages =
      loadingI.messages ++
        [{ id := 3 + 1, type := Internal.MsgType.bot
           message := fallbackReply, timestamp := 3
           avatar := some cfgI.botAvatar }] ∧
    (Paired.step cfgP loadingP
      (Paired.Event.settle 3 (FetchResult.resolve true (some "")))).conversation =
      loadingP.conversation ++ [⟨"hello", fallbackReply, 3⟩] :=
  ⟨missing_or_empty_answer_falls_back.1 cfgI loadingI "hello" 3 none rfl
    (Or.inl rfl),
   missing_or_empty_answer_falls_back.2 cfgP loadingP "hello" 3 (some "") rfl
    (Or.inr rfl)⟩

/-- C4: on a rejected call or a non-ok status, a bot turn with the
fixed apology text is appended, the save-notification history is
unchanged, and the pending state is cleared, in both variants. -/
theorem failure_appends_apology_without_save :
    (∀ (c : Internal.Config) (s : Internal.State) (text : String) (t : Nat)
       (r : FetchResult), s.pending = some text → isFailure r →
      (Internal.step c s (Internal.Event.settle t r)).messages =
        s.messages ++
          [{ id := t + 1, type := Internal.MsgType.bot
             message := apologyReply, timestamp := t
             avatar := some c.botAvatar }] ∧
      (Internal.step c s (Internal.Event.settle t r)).saved = s.saved ∧
      (Internal.step c s (Internal.Event.settle t r)).isLoading = false ∧
      (Internal.step c s (Internal.Event.settle t r)).pending = none) ∧
    (∀ (c : Paired.Config) (s : Paired.State) (text : String) (t : Nat)
       (r : FetchResult), s.pending = some text → isFailure r →
      (Paired.step c s (Paired.Event.settle t r)).conversation =
        s.conversation ++ [⟨text, apologyReply, t⟩] ∧
      Paired.savesCount (Paired.step c s (Paired.Event.settle t r)) =
        Paired.savesCount s ∧
      (Paired.step c s (Paired.Event.settle t r)).isLoading = false ∧
      (Paired.step c s (Paired.Event.settle t r)).pending = none) := by
  constructor <;> intro c s text t r hp hr <;>
    rcases hr with hr | ⟨a, hr⟩ <;> subst hr <;>
    refine ⟨?_, ?_, ?_, ?_⟩ <;>
    simp [Internal.step, Paired.step, Internal.handleSendMessageSettle,
      Paired.handleSendMessageSettle, Paired.savesCount,
      Paired.HostEffect.isSaveNotify, hp]

/-- Concrete check of `failure_appends_apology_without_save`: a network
rejection in the internal variant and a 500-style non-ok resolve in the
paired variant. -/
theorem failure_appends_apology_without_save_witness :
    ((Internal.step cfgI loadingI
        (Internal.Event.settle 3 FetchResult.reject)).messages =
      loadingI.messages ++
        [{ id := 3 + 1, type := Internal.MsgType.bot
           message := apologyReply, timestamp := 3
           avatar := some cfgI.botAvatar }] ∧
      (Internal.step cfgI loadingI
        (Internal.Event.settle 3 FetchResult.reject)).saved =
        loadingI.saved ∧
      (Internal.step cfgI loadingI
        (Internal.Event.settle 3 FetchResult.reject)).isLoading = false ∧
      (Internal.step cfgI loadingI
        (Internal.Event.settle 3 FetchResult.reject)).pending = none) ∧
    ((Paired.step cfgP loadingP
        (Paired.Event.settle 3 (FetchResult.resolve false none))).conversation =
      loadingP.conversation ++ [⟨"hello", apologyReply, 3⟩] ∧
      Paired.savesCount (Paired.step cfgP loadingP
        (Paired.Event.settle 3 (FetchResult.resolve false none))) =
        Paired.savesCount loadingP ∧
      (Paired.step cfgP loadingP
        (Paired.Event.settle 3 (FetchResult.resolve false none))).isLoading =
        false ∧
      (Paired.step cfgP loadingP
        (Paired.Event.settle 3 (FetchResult.resolve false none))).pending =
        none) :=
  ⟨failure_appends_apology_without_save.1 cfgI loadingI "hello" 3
    FetchResult.reject rfl (Or.inl rfl),
   failure_appends_apology_without_save.2 cfgP loadingP "hello" 3
    (FetchResult.resolve false none) rfl (Or.inr ⟨none, rfl⟩)⟩

/-- C5: in the internal-state variant a successful exchange with the
save callback supplied invokes it exactly once — the submit step itself
invokes nothing and clears the input box, and the settle step appends
exactly one invocation record carrying the trimmed text captured at
submit (not the since-cleared input), the resolved bot text, and the
configured user id. -/
theorem save_callback_payload (c : Internal.Config) (s : Internal.State)
    (t tSettle : Nat) (answer : Option String)
    (hsave : c.hasOnSaveMessage = true)
    (hne : (jsTrim s.inputMessage == "") = false)
    (hload : s.isLoading = false) :
    (Internal.step c s (Internal.Event.submit t)).inputMessage = "" ∧
    (Internal.step c s (Internal.Event.submit t)).saved = s.saved ∧
    (Internal.step c (Internal.step c s (Internal.Event.submit t))
      (Internal.Event.settle tSettle (FetchResult.resolve true answer))).saved =
      s.saved ++ [⟨jsTrim s.inputMessage, botResponseOf answer, c.user.id⟩] := by
  have hg : (jsTrim s.inputMessage == "" || s.isLoading) = false := by
    rw [hne, hload]; rfl
  refine ⟨?_, ?_, ?_⟩
  · simp [Internal.step, Internal.handleSendMessageStart, hg]
  · simp [Internal.step, Internal.handleSendMessageStart, hg]
  · simp [Internal.step, Internal.handleSendMessageStart, hg,
      Internal.handleSendMessageSettle, hsave]

/-- Concrete check of `save_callback_payload` on the composed text
hello and reply X. -/
theorem save_callback_payload_witness :
    (Internal.step cfgI composingI (Internal.Event.submit 1)).inputMessage =
      "" ∧
    (Internal.step cfgI composingI (Internal.Event.submit 1)).saved =
      composingI.saved ∧
    (Internal.step cfgI (Internal.step cfgI composingI
        (Internal.Event.submit 1))
      (Internal.Event.settle 2 (FetchResult.resolve true (some "X")))).saved =
      composingI.saved ++
        [⟨jsTrim composingI.inputMessage, botResponseOf (some "X"),
          cfgI.user.id⟩] :=
  save_callback_payload cfgI composingI 1 2 (some "X") rfl (by decide) rfl

/-- C7 counterexample: pressing Enter with the Ctrl modifier held (and
Shift not held) does trigger the submit action, because `handleKeyPress`
checks only `e.shiftKey`; the claim as stated requires that no modifier
be held for the submit to trigger. -/
theorem ctrl_enter_still_triggers :
    handleKeyPress
      { key := "Enter", shiftKey := false, ctrlKey := true
        altKey := false, metaKey := false } = true ∧
    ({ key := "Enter", shiftKey := false, ctrlKey := true
       altKey := false, metaKey := false } : KeyEvent).ctrlKey = true :=
  ⟨rfl, rfl⟩

/-- C6: the conversation store is append-only in both variants — every
single event either leaves the stored sequence unchanged or appends
exactly one entry at its end, and hence the store after any event
sequence is the starting sequence extended, in order, by the appended
entries; no entry is removed, reordered or mutated. -/
theorem conversation_store_append_only :
    (∀ (c : Internal.Config) (s : Internal.State) (e : Internal.Event),
      (Internal.step c s e).messages = s.messages ∨
      ∃ m, (Internal.step c s e).messages = s.messages ++ [m]) ∧
    (∀ (c : Internal.Config) (s : Internal.State)
       (evs : List Internal.Event),
      ∃ tail, (Internal.run c s evs).messages = s.messages ++ tail) ∧
    (∀ (c : Paired.Config) (s : Paired.State) (e : Paired.Event),
      (Paired.step c s e).conversation = s.conversation ∨
      ∃ en, (Paired.step c s e).conversation = s.conversation ++ [en]) ∧
    (∀ (c : Paired.Config) (s : Paired.State) (evs : List Paired.Event),
      ∃ tail, (Paired.run c s evs).conversation = s.conversation ++ tail) :=
  ⟨Internal.messages_step_cases, Internal.messages_run_extends,
   Paired.conversation_step_cases, Paired.conversation_run_extends⟩

/-- C8: on a guard-passing submit, the internal-state variant appends
the user-origin message with the trimmed input text immediately (before
any settle), while the paired-entry variant leaves the conversation
untouched on every event that is not a settle — in particular on the
submit itself and throughout the pending window. -/
theorem optimistic_echo_vs_deferred_append :
    (∀ (c : Internal.Config) (s : Internal.State) (t : Nat),
      (jsTrim s.inputMessage == "") = false → s.isLoading = false →
      (Internal.step c s (Internal.Event.submit t)).messages =
        s.messages ++
          [{ id := t, type := Internal.MsgType.user
             message := jsTrim s.inputMessage, timestamp := t
             avatar := some (Internal.userMsgAvatar c) }]) ∧
    (∀ (c : Paired.Config) (s : Paired.State) (e : Paired.Event),
      (∀ (t : Nat) (r : FetchResult), e ≠ Paired.Event.settle t r) →
      (Paired.step c s e).conversation = s.conversation) := by
  constructor
  · intro c s t hne hload
    have hg : (jsTrim s.inputMessage == "" || s.isLoading) = false := by
      rw [hne, hload]; rfl
    simp [Internal.step, Internal.handleSendMessageStart, hg]
  · intro c s e h
    cases e with
    | toggle => rfl
    | setInput text => rfl
    | submit t =>
      cases hg : jsTrim s.inputMessage == "" || s.isLoading with
      | true => simp [Paired.step, Paired.handleSendMessageStart, hg]
      | false => simp [Paired.step, Paired.handleSendMessageStart, hg]
    | settle t r => exact absurd rfl (h t r)

/-- Concrete check of `optimistic_echo_vs_deferred_append`: the
internal variant echoes hello at submit; the paired variant leaves the
conversation alone on a submit while loading. -/
theorem optimistic_echo_vs_deferred_append_witness :
    (Internal.step cfgI composingI (Internal.Event.submit 1)).messages =
      composingI.messages ++
        [{ id := 1, type := Internal.MsgType.user
           message := jsTrim composingI.inputMessage, timestamp := 1
           avatar := some (Internal.userMsgAvatar cfgI) }] ∧
    (Paired.step cfgP loadingP (Paired.Event.submit 5)).conversation =
      loadingP.conversation :=
  ⟨optimistic_echo_vs_deferred_append.1 cfgI composingI 1 (by decide) rfl,
   optimistic_echo_vs_deferred_append.2 cfgP loadingP
     (Paired.Event.submit 5) (fun t r h => Paired.Event.noConfusion h)⟩

/-- C9: in the internal-state variant a failed exchange keeps the
optimistic echo — submit followed by a failure settle leaves the store
equal to the pre-submit store extended by exactly the user-origin
message with the submitted trimmed text and then the bot-origin apology
message. -/
theorem failure_keeps_optimistic_echo (c : Internal.Config)
    (s : Internal.State) (t tSettle : Nat) (r : FetchResult)
    (hne : (jsTrim s.inputMessage == "") = false)
    (hload : s.isLoading = false) (hr : isFailure r) :
    (Internal.step c (Internal.step c s (Internal.Event.submit t))
      (Internal.Event.settle tSettle r)).messages =
      s.messages ++
        [{ id := t, type := Internal.MsgType.user
           message := jsTrim s.inputMessage, timestamp := t
           avatar := some (Internal.userMsgAvatar c) },
         { id := tSettle + 1, type := Internal.MsgType.bot
           message := apologyReply, timestamp := tSettle
           avatar := some c.botAvatar }] := by
  have hg : (jsTrim s.inputMessage == "" || s.isLoading) = false := by
    rw [hne, hload]; rfl
  rcases hr with hr | ⟨a, hr⟩ <;> subst hr <;>
    simp [Internal.step, Internal.handleSendMessageStart,
      Internal.handleSendMessageSettle, hg]

/-- Concrete check of `failure_keeps_optimistic_echo` on the composed
text hello and a rejected call. -/
theorem failure_keeps_optimistic_echo_witness :
    (Internal.step cfgI (Internal.step cfgI composingI
        (Internal.Event.submit 1))
      (Internal.Event.settle 2 FetchResult.reject)).messages =
      composingI.messages ++
        [{ id := 1, type := Internal.MsgType.user
           message := jsTrim composingI.inputMessage, timestamp := 1
           avatar := some (Internal.userMsgAvatar cfgI) },
         { id := 2 + 1, type := Internal.MsgType.bot
           message := apologyReply, timestamp := 2
           avatar := some cfgI.botAvatar }] :=
  failure_keeps_optimistic_echo cfgI composingI 1 2 FetchResult.reject
    (by decide) rfl (Or.inl rfl)

/-- C10: the paired-entry variant accepts no save callback, and on a
successful settle the single emitted host effect is one call of the
supplied conversation mutator whose update function returns the old
entries plus the one completed entry; over every run of the component
no save notification is ever emitted. -/
theorem paired_success_single_conv_update :
    (∀ (c : Paired.Config) (s : Paired.State) (text : String) (t : Nat)
       (answer : Option String), s.pending = some text →
      (Paired.step c s
        (Paired.Event.settle t (FetchResult.resolve true answer))).effects =
        s.effects ++ [Paired.HostEffect.convUpdate
          (s.conversation ++ [⟨text, botResponseOf answer, t⟩])] ∧
      (Paired.step c s
        (Paired.Event.settle t
          (FetchResult.resolve true answer))).conversation =
        s.conversation ++ [⟨text, botResponseOf answer, t⟩]) ∧
    (∀ (conv : List Paired.ConversationEntry) (c : Paired.Config)
       (evs : List Paired.Event),
      Paired.savesCount (Paired.run c (Paired.init conv) evs) = 0) := by
  constructor
  · intro c s text t answer hp
    constructor <;> simp [Paired.step, Paired.handleSendMessageSettle, hp]
  · intro conv c evs
    rw [Paired.savesCount_run]
    rfl

/-- Concrete check of `paired_success_single_conv_update` on an
in-flight exchange resolving with reply X. -/
theorem paired_success_single_conv_update_witness :
    (Paired.step cfgP loadingP
      (Paired.Event.settle 9 (FetchResult.resolve true (some "X")))).effects =
      loadingP.effects ++ [Paired.HostEffect.convUpdate
        (loadingP.conversation ++ [⟨"hello", botResponseOf (some "X"), 9⟩])] ∧
    (Paired.step cfgP loadingP
      (Paired.Event.settle 9
        (FetchResult.resolve true (some "X")))).conversation =
      loadingP.conversation ++ [⟨"hello", botResponseOf (some "X"), 9⟩] :=
  paired_success_single_conv_update.1 cfgP loadingP "hello" 9 (some "X") rfl

end Chatbot
